import Mathlib

/-!
# Shallow embedding of the offscreen-worker render loop

This file embeds the worker-side render loop of
`src/components/ThreeJS/ShaderDemo.tsx` (the `offscreen-worker` module:
module-level state, `self.onmessage` interaction dispatch,
`handleInteraction`, `updateCameraPosition`, the object update inside
`animate`, and the per-frame statistics aggregation of `animate`).  The
main-thread loop in the `OffscreenDemo` component duplicates the same
object-update and statistics logic verbatim, so the same definitions
model both copies.

JavaScript numbers are modelled as exact rationals (`ℚ`); the
trigonometric functions used only to place the camera are passed in as
abstract parameters `jsSin jsCos : ℚ → ℚ`.  An optional/absent message
timestamp is modelled as `0`, matching the JS falsiness check
`if (timestamp)`.
-/

/-- A 3-component vector, as used for positions and rotations. -/
structure Vec3 where
  x : ℚ
  y : ℚ
  z : ℚ
  deriving DecidableEq

/-- The `userData.velocity` payload of a scene object: linear velocity
`x,y,z` and angular velocity `rx,ry,rz`. -/
structure ObjectVelocity where
  x : ℚ
  y : ℚ
  z : ℚ
  rx : ℚ
  ry : ℚ
  rz : ℚ
  deriving DecidableEq

/-- One animated cube: position, rotation and its velocity payload. -/
structure SceneObject where
  position : Vec3
  rotation : Vec3
  velocity : ObjectVelocity
  deriving DecidableEq

/-- The `{x, y}` record used for `cameraRotation` and
`cameraRotationTarget` (x = pitch, y = yaw). -/
structure RotationXY where
  x : ℚ
  y : ℚ
  deriving DecidableEq

/-- The module-level mutable state of the worker
(`ShaderDemo.tsx`, worker module top level). `cameraPosition` and
`lookAtTarget` mirror `camera.position` and the argument of
`camera.lookAt`. -/
structure WorkerState where
  objects : List SceneObject
  objectCount : ℕ
  frames : ℕ
  fps : ℤ
  frameTimes : List ℚ
  droppedFrames : ℕ
  maxDelay : ℚ
  lastTime : ℚ
  lastInteractionTime : ℚ
  interactionDelay : ℚ
  interactionDelays : List ℚ
  cameraRotation : RotationXY
  cameraRotationTarget : RotationXY
  cameraDistance : ℚ
  cameraDistanceTarget : ℚ
  isDragging : Bool
  cameraPosition : Vec3
  lookAtTarget : Vec3
  deriving DecidableEq

/-- `TARGET_FRAME_TIME = 1000 / 60` (16.67 ms). -/
def TARGET_FRAME_TIME : ℚ := 1000 / 60

/-- `dampingFactor = 0.05`. -/
def dampingFactor : ℚ := 0.05

/-- `Math.PI / 2` (the shortest decimal form of the IEEE-754 double). -/
def halfPi : ℚ := 1.5707963267948966

/-- The `{type:'interaction', action, ...}` message payloads handled by
`handleInteraction`.  `stop` embeds the `action:'end'` message (`end` is
a reserved word in Lean).  A missing timestamp is modelled as `0`. -/
inductive InteractionMsg where
  | start (timestamp : ℚ)
  | rotate (deltaX deltaY : ℚ)
  | stop
  | zoom (delta : ℚ) (timestamp : ℚ)
  deriving DecidableEq

/-- `handleInteraction` (worker module, lines 188–215): `start` raises
the dragging flag and stores a truthy timestamp; `rotate` (only while
dragging) integrates deltas into the rotation target and clamps the
pitch target to `[-π/2, π/2]`; `end` lowers the dragging flag; `zoom`
integrates the wheel delta into the distance target, clamps it to
`[10, 100]` and stores a truthy timestamp. -/
def handleInteraction (data : InteractionMsg) (s : WorkerState) : WorkerState :=
  match data with
  | .start timestamp =>
      let s1 := { s with isDragging := true }
      if timestamp ≠ 0 then { s1 with lastInteractionTime := timestamp } else s1
  | .rotate deltaX deltaY =>
      if s.isDragging then
        let ty := s.cameraRotationTarget.y - deltaX * 0.005
        let tx0 := s.cameraRotationTarget.x + deltaY * 0.005
        let tx := max (-halfPi) (min halfPi tx0)
        { s with cameraRotationTarget := ⟨tx, ty⟩ }
      else s
  | .stop => { s with isDragging := false }
  | .zoom delta timestamp =>
      let t0 := s.cameraDistanceTarget + delta * 0.05
      let t := max 10 (min 100 t0)
      let s1 := { s with cameraDistanceTarget := t }
      if timestamp ≠ 0 then { s1 with lastInteractionTime := timestamp } else s1

/-- `updateCameraPosition` (worker module, lines 218–229): damp the
current rotation/distance toward their targets with `dampingFactor`,
then place the camera by spherical coordinates and aim it at the
origin.  `jsSin`/`jsCos` stand for `Math.sin`/`Math.cos`. -/
def updateCameraPosition (jsSin jsCos : ℚ → ℚ) (s : WorkerState) : WorkerState :=
  let rx := s.cameraRotation.x + (s.cameraRotationTarget.x - s.cameraRotation.x) * dampingFactor
  let ry := s.cameraRotation.y + (s.cameraRotationTarget.y - s.cameraRotation.y) * dampingFactor
  let d := s.cameraDistance + (s.cameraDistanceTarget - s.cameraDistance) * dampingFactor
  { s with
    cameraRotation := ⟨rx, ry⟩
    cameraDistance := d
    cameraPosition := ⟨d * jsSin ry * jsCos rx, d * jsSin rx, d * jsCos ry * jsCos rx⟩
    lookAtTarget := ⟨0, 0, 0⟩ }

/-- The body of `objects.forEach` in `animate` (worker module, lines
293–305, duplicated at `OffscreenDemo` lines 281–293): advance the
position by the velocity, flip the sign of any velocity component whose
resulting position component exceeds magnitude 25, and advance the
rotation by the angular velocity. -/
def updateObject (obj : SceneObject) : SceneObject :=
  let px := obj.position.x + obj.velocity.x
  let py := obj.position.y + obj.velocity.y
  let pz := obj.position.z + obj.velocity.z
  let vx := if |px| > 25 then -obj.velocity.x else obj.velocity.x
  let vy := if |py| > 25 then -obj.velocity.y else obj.velocity.y
  let vz := if |pz| > 25 then -obj.velocity.z else obj.velocity.z
  { obj with
    position := ⟨px, py, pz⟩
    rotation := ⟨obj.rotation.x + obj.velocity.rx,
                 obj.rotation.y + obj.velocity.ry,
                 obj.rotation.z + obj.velocity.rz⟩
    velocity := { obj.velocity with x := vx, y := vy, z := vz } }

/-- The wall-clock readings one `animate` invocation makes:
`frameStart` and `frameEnd` are the two `performance.now()` readings
around the frame body (so the measured duration is
`frameEnd - frameStart`), `dateNow` is the `Date.now()` reading used
for the interaction delay, and `now` is the final `performance.now()`
reading used for the FPS window check. -/
structure FrameInput where
  frameStart : ℚ
  dateNow : ℚ
  frameEnd : ℚ
  now : ℚ
  deriving DecidableEq

/-- A field of the posted stats message: either a raw JS number holding
an integer (`fps`, `droppedFrames`), or the string produced by
`x.toFixed(2)`, represented by its value in hundredths. -/
inductive StatField where
  | intVal (n : ℤ)
  | fixed2 (hundredths : ℤ)
  deriving DecidableEq

/-- Whether a stat field is a `toFixed(2)`-formatted string (rather
than a raw number). -/
def StatField.isFormattedString : StatField → Bool
  | .fixed2 _ => true
  | .intVal _ => false

/-- `x.toFixed(2)` on a rational, as its value in hundredths. -/
def toFixed2 (q : ℚ) : StatField := .fixed2 (round (100 * q))

/-- The `{type:'stats', ...}` message posted to the main thread. -/
structure StatsSnapshot where
  fps : StatField
  avgFrameTime : StatField
  droppedFrames : StatField
  maxDelay : StatField
  interactionDelay : StatField
  deriving DecidableEq

/-- The interaction-delay block of `animate` (worker module, lines
280–290): if a timestamp is pending, push `Date.now() − timestamp` into
`interactionDelays`, drop the oldest entry when the length exceeds 30,
recompute the mean, and clear the pending timestamp. -/
def stepInteractionDelay (dateNow : ℚ) (s : WorkerState) : WorkerState :=
  if s.lastInteractionTime > 0 then
    let currentDelay := dateNow - s.lastInteractionTime
    let ds0 := s.interactionDelays ++ [currentDelay]
    let ds := if ds0.length > 30 then ds0.tail else ds0
    { s with
      interactionDelays := ds
      interactionDelay := ds.sum / (ds.length : ℚ)
      lastInteractionTime := 0 }
  else s

/-- The `objects.forEach` block of `animate`. -/
def stepObjects (s : WorkerState) : WorkerState :=
  { s with objects := s.objects.map updateObject }

/-- The frame-time bookkeeping of `animate` (worker module, lines
309–319): push the measured duration into `frameTimes` (capacity 60,
oldest evicted), bump `droppedFrames` when the duration exceeds
`TARGET_FRAME_TIME`, update the running max, and count the frame. -/
def stepFrameStats (frameTime : ℚ) (s : WorkerState) : WorkerState :=
  let fts0 := s.frameTimes ++ [frameTime]
  let fts := if fts0.length > 60 then fts0.tail else fts0
  let dropped := if frameTime > TARGET_FRAME_TIME then s.droppedFrames + 1 else s.droppedFrames
  { s with
    frameTimes := fts
    droppedFrames := dropped
    maxDelay := max s.maxDelay frameTime
    frames := s.frames + 1 }

/-- The once-per-second stats emission of `animate` (worker module,
lines 320–341): when at least 1000 ms elapsed since `lastTime`, compute
`fps = Math.round(frames * 1000 / elapsed)`, post the snapshot (fps and
droppedFrames as raw numbers, the other fields via `toFixed(2)`), and
reset `frames`, `lastTime`, `droppedFrames` and `maxDelay`. -/
def stepFPS (now : ℚ) (s : WorkerState) : WorkerState × Option StatsSnapshot :=
  if now ≥ s.lastTime + 1000 then
    let fpsVal := round ((s.frames : ℚ) * 1000 / (now - s.lastTime))
    let avgFrameTime := s.frameTimes.sum / (s.frameTimes.length : ℚ)
    let snap : StatsSnapshot :=
      { fps := .intVal fpsVal
        avgFrameTime := toFixed2 avgFrameTime
        droppedFrames := .intVal (s.droppedFrames : ℤ)
        maxDelay := toFixed2 s.maxDelay
        interactionDelay := toFixed2 s.interactionDelay }
    ({ s with
        fps := fpsVal
        frames := 0
        lastTime := now
        droppedFrames := 0
        maxDelay := 0 }, some snap)
  else (s, none)

/-- One invocation of `animate` (worker module, lines 273–344): damp
the camera, process a pending interaction timestamp, advance all
objects, record the frame duration, and possibly emit a stats
snapshot.  The `renderer.render` call has no observable state. -/
def animate (jsSin jsCos : ℚ → ℚ) (inp : FrameInput) (s : WorkerState) :
    WorkerState × Option StatsSnapshot :=
  let s1 := updateCameraPosition jsSin jsCos s
  let s2 := stepInteractionDelay inp.dateNow s1
  let s3 := stepObjects s2
  let frameTime := inp.frameEnd - inp.frameStart
  let s4 := stepFrameStats frameTime s3
  stepFPS inp.now s4

/-- The worker's module-level initial state (worker module, lines
133–155); `t0` is the `performance.now()` reading at module load. -/
def initState (t0 : ℚ) : WorkerState :=
  { objects := []
    objectCount := 100
    frames := 0
    fps := 0
    frameTimes := []
    droppedFrames := 0
    maxDelay := 0
    lastTime := t0
    lastInteractionTime := 0
    interactionDelay := 0
    interactionDelays := []
    cameraRotation := ⟨0, 0⟩
    cameraRotationTarget := ⟨0, 0⟩
    cameraDistance := 30
    cameraDistanceTarget := 30
    isDragging := false
    cameraPosition := ⟨0, 0, 0⟩
    lookAtTarget := ⟨0, 0, 0⟩ }

/-- Folding a sequence of interaction messages through
`handleInteraction`, as the worker's `self.onmessage` dispatch does for
`{type:'interaction'}` messages. -/
def processInteractions (msgs : List InteractionMsg) (s : WorkerState) : WorkerState :=
  msgs.foldl (fun acc m => handleInteraction m acc) s

/-- Folding a sequence of frames through `animate`, keeping only the
state. -/
def runFrames (jsSin jsCos : ℚ → ℚ) (inps : List FrameInput) (s : WorkerState) : WorkerState :=
  inps.foldl (fun acc i => (animate jsSin jsCos i acc).1) s

/-- The number of frames in a list whose measured duration strictly
exceeds `TARGET_FRAME_TIME`. -/
def countOverTarget (inps : List FrameInput) : ℕ :=
  (inps.filter fun i => decide (i.frameEnd - i.frameStart > TARGET_FRAME_TIME)).length

/-- The `objectCount = count || 100` fallback of the worker's `init`
handler (worker module, line 162); an absent field is `none`, and `0`
is falsy. -/
def initObjectCount (count : Option ℕ) : ℕ :=
  match count with
  | none => 100
  | some c => if c = 0 then 100 else c

/-- `createScene` (worker module, lines 231–271) builds exactly
`objectCount` cubes; the randomized construction of each cube is
abstracted by `mkObj`. -/
def createScene (count : ℕ) (mkObj : ℕ → SceneObject) : List SceneObject :=
  (List.range count).map mkObj

/-! ## Frame-step bookkeeping lemmas

Each per-frame sub-step only writes the fields its source block assigns;
these lemmas record the fields it leaves untouched, and characterize the
fields it writes. -/

theorem animate_eq (jsSin jsCos : ℚ → ℚ) (inp : FrameInput) (s : WorkerState) :
    animate jsSin jsCos inp s =
      stepFPS inp.now (stepFrameStats (inp.frameEnd - inp.frameStart)
        (stepObjects (stepInteractionDelay inp.dateNow (updateCameraPosition jsSin jsCos s)))) := rfl

theorem ucp_keeps (jsSin jsCos : ℚ → ℚ) (s : WorkerState) :
    (updateCameraPosition jsSin jsCos s).cameraRotationTarget = s.cameraRotationTarget ∧
    (updateCameraPosition jsSin jsCos s).cameraDistanceTarget = s.cameraDistanceTarget ∧
    (updateCameraPosition jsSin jsCos s).lastInteractionTime = s.lastInteractionTime ∧
    (updateCameraPosition jsSin jsCos s).interactionDelays = s.interactionDelays ∧
    (updateCameraPosition jsSin jsCos s).interactionDelay = s.interactionDelay ∧
    (updateCameraPosition jsSin jsCos s).frameTimes = s.frameTimes ∧
    (updateCameraPosition jsSin jsCos s).droppedFrames = s.droppedFrames ∧
    (updateCameraPosition jsSin jsCos s).maxDelay = s.maxDelay ∧
    (updateCameraPosition jsSin jsCos s).frames = s.frames ∧
    (updateCameraPosition jsSin jsCos s).lastTime = s.lastTime :=
  ⟨rfl, rfl, rfl, rfl, rfl, rfl, rfl, rfl, rfl, rfl⟩

theorem sid_keeps (d : ℚ) (s : WorkerState) :
    (stepInteractionDelay d s).cameraRotation = s.cameraRotation ∧
    (stepInteractionDelay d s).cameraRotationTarget = s.cameraRotationTarget ∧
    (stepInteractionDelay d s).cameraDistance = s.cameraDistance ∧
    (stepInteractionDelay d s).cameraDistanceTarget = s.cameraDistanceTarget ∧
    (stepInteractionDelay d s).cameraPosition = s.cameraPosition ∧
    (stepInteractionDelay d s).lookAtTarget = s.lookAtTarget ∧
    (stepInteractionDelay d s).frameTimes = s.frameTimes ∧
    (stepInteractionDelay d s).droppedFrames = s.droppedFrames ∧
    (stepInteractionDelay d s).maxDelay = s.maxDelay ∧
    (stepInteractionDelay d s).frames = s.frames ∧
    (stepInteractionDelay d s).lastTime = s.lastTime := by
  unfold stepInteractionDelay
  split <;> exact ⟨rfl, rfl, rfl, rfl, rfl, rfl, rfl, rfl, rfl, rfl, rfl⟩

theorem sobj_keeps (s : WorkerState) :
    (stepObjects s).cameraRotation = s.cameraRotation ∧
    (stepObjects s).cameraRotationTarget = s.cameraRotationTarget ∧
    (stepObjects s).cameraDistance = s.cameraDistance ∧
    (stepObjects s).cameraDistanceTarget = s.cameraDistanceTarget ∧
    (stepObjects s).cameraPosition = s.cameraPosition ∧
    (stepObjects s).lookAtTarget = s.lookAtTarget ∧
    (stepObjects s).lastInteractionTime = s.lastInteractionTime ∧
    (stepObjects s).interactionDelays = s.interactionDelays ∧
    (stepObjects s).interactionDelay = s.interactionDelay ∧
    (stepObjects s).frameTimes = s.frameTimes ∧
    (stepObjects s).droppedFrames = s.droppedFrames ∧
    (stepObjects s).maxDelay = s.maxDelay ∧
    (stepObjects s).frames = s.frames ∧
    (stepObjects s).lastTime = s.lastTime :=
  ⟨rfl, rfl, rfl, rfl, rfl, rfl, rfl, rfl, rfl, rfl, rfl, rfl, rfl, rfl⟩

theorem sfs_keeps (t : ℚ) (s : WorkerState) :
    (stepFrameStats t s).cameraRotation = s.cameraRotation ∧
    (stepFrameStats t s).cameraRotationTarget = s.cameraRotationTarget ∧
    (stepFrameStats t s).cameraDistance = s.cameraDistance ∧
    (stepFrameStats t s).cameraDistanceTarget = s.cameraDistanceTarget ∧
    (stepFrameStats t s).cameraPosition = s.cameraPosition ∧
    (stepFrameStats t s).lookAtTarget = s.lookAtTarget ∧
    (stepFrameStats t s).lastInteractionTime = s.lastInteractionTime ∧
    (stepFrameStats t s).interactionDelays = s.interactionDelays ∧
    (stepFrameStats t s).interactionDelay = s.interactionDelay ∧
    (stepFrameStats t s).lastTime = s.lastTime :=
  ⟨rfl, rfl, rfl, rfl, rfl, rfl, rfl, rfl, rfl, rfl⟩

theorem sfs_writes (t : ℚ) (s : WorkerState) :
    (stepFrameStats t s).frameTimes =
      (if (s.frameTimes ++ [t]).length > 60 then (s.frameTimes ++ [t]).tail
       else s.frameTimes ++ [t]) ∧
    (stepFrameStats t s).droppedFrames =
      (if t > TARGET_FRAME_TIME then s.droppedFrames + 1 else s.droppedFrames) ∧
    (stepFrameStats t s).maxDelay = max s.maxDelay t ∧
    (stepFrameStats t s).frames = s.frames + 1 :=
  ⟨rfl, rfl, rfl, rfl⟩

theorem sfps_keeps (now : ℚ) (s : WorkerState) :
    (stepFPS now s).1.cameraRotation = s.cameraRotation ∧
    (stepFPS now s).1.cameraRotationTarget = s.cameraRotationTarget ∧
    (stepFPS now s).1.cameraDistance = s.cameraDistance ∧
    (stepFPS now s).1.cameraDistanceTarget = s.cameraDistanceTarget ∧
    (stepFPS now s).1.cameraPosition = s.cameraPosition ∧
    (stepFPS now s).1.lookAtTarget = s.lookAtTarget ∧
    (stepFPS now s).1.lastInteractionTime = s.lastInteractionTime ∧
    (stepFPS now s).1.interactionDelays = s.interactionDelays ∧
    (stepFPS now s).1.interactionDelay = s.interactionDelay ∧
    (stepFPS now s).1.frameTimes = s.frameTimes := by
  unfold stepFPS
  split <;> exact ⟨rfl, rfl, rfl, rfl, rfl, rfl, rfl, rfl, rfl, rfl⟩

theorem stepFPS_emit (now : ℚ) (s : WorkerState) (h : now ≥ s.lastTime + 1000) :
    stepFPS now s =
      ({ s with
          fps := round ((s.frames : ℚ) * 1000 / (now - s.lastTime))
          frames := 0
          lastTime := now
          droppedFrames := 0
          maxDelay := 0 },
        some
          { fps := .intVal (round ((s.frames : ℚ) * 1000 / (now - s.lastTime)))
            avgFrameTime := toFixed2 (s.frameTimes.sum / (s.frameTimes.length : ℚ))
            droppedFrames := .intVal (s.droppedFrames : ℤ)
            maxDelay := toFixed2 s.maxDelay
            interactionDelay := toFixed2 s.interactionDelay }) := by
  unfold stepFPS
  rw [if_pos h]

theorem stepFPS_no_emit (now : ℚ) (s : WorkerState) (h : ¬ now ≥ s.lastTime + 1000) :
    stepFPS now s = (s, none) := by
  unfold stepFPS
  rw [if_neg h]

theorem stepInteractionDelay_pending (d : ℚ) (s : WorkerState)
    (h : s.lastInteractionTime > 0) :
    stepInteractionDelay d s =
      { s with
        interactionDelays :=
          (if (s.interactionDelays ++ [d - s.lastInteractionTime]).length > 30
           then (s.interactionDelays ++ [d - s.lastInteractionTime]).tail
           else s.interactionDelays ++ [d - s.lastInteractionTime])
        interactionDelay :=
          (if (s.interactionDelays ++ [d - s.lastInteractionTime]).length > 30
           then (s.interactionDelays ++ [d - s.lastInteractionTime]).tail
           else s.interactionDelays ++ [d - s.lastInteractionTime]).sum /
          (((if (s.interactionDelays ++ [d - s.lastInteractionTime]).length > 30
             then (s.interactionDelays ++ [d - s.lastInteractionTime]).tail
             else s.interactionDelays ++ [d - s.lastInteractionTime]).length : ℕ) : ℚ)
        lastInteractionTime := 0 } := by
  unfold stepInteractionDelay
  rw [if_pos h]

theorem stepInteractionDelay_idle (d : ℚ) (s : WorkerState)
    (h : ¬ s.lastInteractionTime > 0) :
    stepInteractionDelay d s = s := by
  unfold stepInteractionDelay
  rw [if_neg h]

/-! ## Camera damping -/

theorem damp_abs (t c : ℚ) :
    |t - (c + (t - c) * dampingFactor)| = (1 - dampingFactor) * |t - c| := by
  have h : t - (c + (t - c) * dampingFactor) = (1 - dampingFactor) * (t - c) := by ring
  rw [h, abs_mul, abs_of_nonneg (by norm_num [dampingFactor] : (0:ℚ) ≤ 1 - dampingFactor)]

theorem ucp_iterate (jsSin jsCos : ℚ → ℚ) (s : WorkerState) (n : ℕ) :
    ((fun st => updateCameraPosition jsSin jsCos st)^[n] s).cameraRotationTarget = s.cameraRotationTarget ∧
    ((fun st => updateCameraPosition jsSin jsCos st)^[n] s).cameraDistanceTarget = s.cameraDistanceTarget ∧
    |s.cameraRotationTarget.x - ((fun st => updateCameraPosition jsSin jsCos st)^[n] s).cameraRotation.x| =
      (1 - dampingFactor) ^ n * |s.cameraRotationTarget.x - s.cameraRotation.x| ∧
    |s.cameraRotationTarget.y - ((fun st => updateCameraPosition jsSin jsCos st)^[n] s).cameraRotation.y| =
      (1 - dampingFactor) ^ n * |s.cameraRotationTarget.y - s.cameraRotation.y| ∧
    |s.cameraDistanceTarget - ((fun st => updateCameraPosition jsSin jsCos st)^[n] s).cameraDistance| =
      (1 - dampingFactor) ^ n * |s.cameraDistanceTarget - s.cameraDistance| := by
  induction n with
  | zero => simp
  | succ n ih =>
    rw [Function.iterate_succ_apply']
    set it := (fun st => updateCameraPosition jsSin jsCos st)^[n] s with hit
    obtain ⟨h1, h2, h3, h4, h5⟩ := ih
    refine ⟨?_, ?_, ?_, ?_, ?_⟩
    · rw [show (updateCameraPosition jsSin jsCos it).cameraRotationTarget = it.cameraRotationTarget from rfl, h1]
    · rw [show (updateCameraPosition jsSin jsCos it).cameraDistanceTarget = it.cameraDistanceTarget from rfl, h2]
    · rw [show (updateCameraPosition jsSin jsCos it).cameraRotation.x =
            it.cameraRotation.x + (it.cameraRotationTarget.x - it.cameraRotation.x) * dampingFactor from rfl]
      rw [show it.cameraRotationTarget.x = s.cameraRotationTarget.x from congrArg RotationXY.x h1]
      rw [damp_abs, h3]
      ring
    · rw [show (updateCameraPosition jsSin jsCos it).cameraRotation.y =
            it.cameraRotation.y + (it.cameraRotationTarget.y - it.cameraRotation.y) * dampingFactor from rfl]
      rw [show it.cameraRotationTarget.y = s.cameraRotationTarget.y from congrArg RotationXY.y h1]
      rw [damp_abs, h4]
      ring
    · rw [show (updateCameraPosition jsSin jsCos it).cameraDistance =
            it.cameraDistance + (it.cameraDistanceTarget - it.cameraDistance) * dampingFactor from rfl]
      rw [h2, damp_abs, h5]
      ring

/-- C1: each `animate` call — with or without new input — damps the
current yaw, pitch and distance by
`current += (target - current) * dampingFactor` with the fixed factor
0.05, leaving the targets untouched; hence for a fixed target the gap
`|target - current|` shrinks by the exact factor `1 - 0.05` each frame,
so it is monotonically non-increasing and converges geometrically
toward the target. -/
theorem camera_damping_monotone_C1 (jsSin jsCos : ℚ → ℚ) (inp : FrameInput) (s : WorkerState) :
    dampingFactor = 0.05 ∧
    (animate jsSin jsCos inp s).1.cameraRotation = (updateCameraPosition jsSin jsCos s).cameraRotation ∧
    (animate jsSin jsCos inp s).1.cameraDistance = (updateCameraPosition jsSin jsCos s).cameraDistance ∧
    (updateCameraPosition jsSin jsCos s).cameraRotationTarget = s.cameraRotationTarget ∧
    (updateCameraPosition jsSin jsCos s).cameraDistanceTarget = s.cameraDistanceTarget ∧
    |s.cameraRotationTarget.x - (updateCameraPosition jsSin jsCos s).cameraRotation.x| =
      (1 - dampingFactor) * |s.cameraRotationTarget.x - s.cameraRotation.x| ∧
    |s.cameraRotationTarget.y - (updateCameraPosition jsSin jsCos s).cameraRotation.y| =
      (1 - dampingFactor) * |s.cameraRotationTarget.y - s.cameraRotation.y| ∧
    |s.cameraDistanceTarget - (updateCameraPosition jsSin jsCos s).cameraDistance| =
      (1 - dampingFactor) * |s.cameraDistanceTarget - s.cameraDistance| ∧
    |s.cameraRotationTarget.x - (updateCameraPosition jsSin jsCos s).cameraRotation.x| ≤
      |s.cameraRotationTarget.x - s.cameraRotation.x| ∧
    |s.cameraRotationTarget.y - (updateCameraPosition jsSin jsCos s).cameraRotation.y| ≤
      |s.cameraRotationTarget.y - s.cameraRotation.y| ∧
    |s.cameraDistanceTarget - (updateCameraPosition jsSin jsCos s).cameraDistance| ≤
      |s.cameraDistanceTarget - s.cameraDistance| ∧
    ∀ n : ℕ,
      |s.cameraRotationTarget.x - ((fun st => updateCameraPosition jsSin jsCos st)^[n] s).cameraRotation.x| =
        (1 - dampingFactor) ^ n * |s.cameraRotationTarget.x - s.cameraRotation.x| ∧
      |s.cameraRotationTarget.y - ((fun st => updateCameraPosition jsSin jsCos st)^[n] s).cameraRotation.y| =
        (1 - dampingFactor) ^ n * |s.cameraRotationTarget.y - s.cameraRotation.y| ∧
      |s.cameraDistanceTarget - ((fun st => updateCameraPosition jsSin jsCos st)^[n] s).cameraDistance| =
        (1 - dampingFactor) ^ n * |s.cameraDistanceTarget - s.cameraDistance| := by
  have ex : |s.cameraRotationTarget.x - (updateCameraPosition jsSin jsCos s).cameraRotation.x| =
      (1 - dampingFactor) * |s.cameraRotationTarget.x - s.cameraRotation.x| := by
    rw [show (updateCameraPosition jsSin jsCos s).cameraRotation.x =
          s.cameraRotation.x + (s.cameraRotationTarget.x - s.cameraRotation.x) * dampingFactor from rfl,
        damp_abs]
  have ey : |s.cameraRotationTarget.y - (updateCameraPosition jsSin jsCos s).cameraRotation.y| =
      (1 - dampingFactor) * |s.cameraRotationTarget.y - s.cameraRotation.y| := by
    rw [show (updateCameraPosition jsSin jsCos s).cameraRotation.y =
          s.cameraRotation.y + (s.cameraRotationTarget.y - s.cameraRotation.y) * dampingFactor from rfl,
        damp_abs]
  have ed : |s.cameraDistanceTarget - (updateCameraPosition jsSin jsCos s).cameraDistance| =
      (1 - dampingFactor) * |s.cameraDistanceTarget - s.cameraDistance| := by
    rw [show (updateCameraPosition jsSin jsCos s).cameraDistance =
          s.cameraDistance + (s.cameraDistanceTarget - s.cameraDistance) * dampingFactor from rfl,
        damp_abs]
  have hle : (1 - dampingFactor : ℚ) ≤ 1 := by norm_num [dampingFactor]
  refine ⟨rfl, ?_, ?_, rfl, rfl, ex, ey, ed, ?_, ?_, ?_, ?_⟩
  · rw [animate_eq, (sfps_keeps _ _).1, (sfs_keeps _ _).1, (sobj_keeps _).1, (sid_keeps _ _).1]
  · rw [animate_eq, (sfps_keeps _ _).2.2.1, (sfs_keeps _ _).2.2.1, (sobj_keeps _).2.2.1,
      (sid_keeps _ _).2.2.1]
  · rw [ex]
    exact mul_le_of_le_one_left (abs_nonneg _) hle
  · rw [ey]
    exact mul_le_of_le_one_left (abs_nonneg _) hle
  · rw [ed]
    exact mul_le_of_le_one_left (abs_nonneg _) hle
  · intro n
    exact ⟨(ucp_iterate jsSin jsCos s n).2.2.1, (ucp_iterate jsSin jsCos s n).2.2.2.1,
      (ucp_iterate jsSin jsCos s n).2.2.2.2⟩

/-! ## Pitch and distance clamping -/

theorem handleInteraction_pitch (m : InteractionMsg) (s : WorkerState)
    (h : -halfPi ≤ s.cameraRotationTarget.x ∧ s.cameraRotationTarget.x ≤ halfPi) :
    -halfPi ≤ (handleInteraction m s).cameraRotationTarget.x ∧
      (handleInteraction m s).cameraRotationTarget.x ≤ halfPi := by
  cases m with
  | start t =>
    simp only [handleInteraction]
    split <;> exact h
  | rotate dX dY =>
    simp only [handleInteraction]
    split
    · exact ⟨le_max_left _ _, max_le (by norm_num [halfPi]) (min_le_left _ _)⟩
    · exact h
  | stop => exact h
  | zoom d t =>
    simp only [handleInteraction]
    split <;> exact h

theorem processInteractions_pitch (msgs : List InteractionMsg) (s : WorkerState)
    (h : -halfPi ≤ s.cameraRotationTarget.x ∧ s.cameraRotationTarget.x ≤ halfPi) :
    -halfPi ≤ (processInteractions msgs s).cameraRotationTarget.x ∧
      (processInteractions msgs s).cameraRotationTarget.x ≤ halfPi := by
  induction msgs generalizing s with
  | nil => exact h
  | cons m ms ih => exact ih (handleInteraction m s) (handleInteraction_pitch m s h)

/-- C2: starting from the worker's initial state, after any sequence of
interaction messages the pitch target `cameraRotationTarget.x` lies in
`[-π/2, π/2]`; moreover any non-`rotate` interaction message leaves the
pitch target unchanged. -/
theorem pitch_target_clamped_C2 (msgs : List InteractionMsg) (t0 : ℚ) :
    (-halfPi ≤ (processInteractions msgs (initState t0)).cameraRotationTarget.x ∧
      (processInteractions msgs (initState t0)).cameraRotationTarget.x ≤ halfPi) ∧
    ∀ (m : InteractionMsg) (s : WorkerState), (∀ dX dY : ℚ, m ≠ .rotate dX dY) →
      (handleInteraction m s).cameraRotationTarget.x = s.cameraRotationTarget.x := by
  constructor
  · refine processInteractions_pitch msgs (initState t0) ?_
    constructor <;> norm_num [initState, halfPi]
  · intro m s hm
    cases m with
    | start t =>
      simp only [handleInteraction]
      split <;> rfl
    | rotate dX dY => exact absurd rfl (hm dX dY)
    | stop => rfl
    | zoom d t =>
      simp only [handleInteraction]
      split <;> rfl

theorem pitch_target_clamped_C2_witness :
    (-halfPi ≤ (processInteractions [InteractionMsg.start 3, InteractionMsg.rotate 2 1000,
        InteractionMsg.stop] (initState 0)).cameraRotationTarget.x ∧
      (processInteractions [InteractionMsg.start 3, InteractionMsg.rotate 2 1000,
        InteractionMsg.stop] (initState 0)).cameraRotationTarget.x ≤ halfPi) ∧
    (handleInteraction InteractionMsg.stop (initState 0)).cameraRotationTarget.x =
      (initState 0).cameraRotationTarget.x := by
  have h := pitch_target_clamped_C2 [InteractionMsg.start 3, InteractionMsg.rotate 2 1000,
    InteractionMsg.stop] 0
  exact ⟨h.1, h.2 InteractionMsg.stop (initState 0)
    (fun dX dY hEq => InteractionMsg.noConfusion hEq)⟩

theorem zoom_clamps (delta ts : ℚ) (s : WorkerState) :
    10 ≤ (handleInteraction (.zoom delta ts) s).cameraDistanceTarget ∧
      (handleInteraction (.zoom delta ts) s).cameraDistanceTarget ≤ 100 := by
  simp only [handleInteraction]
  split <;> exact ⟨le_max_left _ _, max_le (by norm_num) (min_le_left _ _)⟩

theorem processZooms_dist (zs : List (ℚ × ℚ)) (s : WorkerState)
    (h : 10 ≤ s.cameraDistanceTarget ∧ s.cameraDistanceTarget ≤ 100) :
    10 ≤ (processInteractions (zs.map fun p => .zoom p.1 p.2) s).cameraDistanceTarget ∧
      (processInteractions (zs.map fun p => .zoom p.1 p.2) s).cameraDistanceTarget ≤ 100 := by
  induction zs generalizing s with
  | nil => exact h
  | cons z t ih => exact ih (handleInteraction (.zoom z.1 z.2) s) (zoom_clamps z.1 z.2 s)

/-- C3: starting from the initial target distance 30, after any
sequence of zoom messages with arbitrary deltas (and timestamps) the
camera target distance lies within `[10, 100]`. -/
theorem zoom_distance_clamped_C3 (zs : List (ℚ × ℚ)) (t0 : ℚ) :
    10 ≤ (processInteractions (zs.map fun p => InteractionMsg.zoom p.1 p.2)
        (initState t0)).cameraDistanceTarget ∧
      (processInteractions (zs.map fun p => InteractionMsg.zoom p.1 p.2)
        (initState t0)).cameraDistanceTarget ≤ 100 := by
  refine processZooms_dist zs (initState t0) ?_
  constructor <;> norm_num [initState]

/-- C9: after each frame's damping step, the camera world position is
exactly `x = distance * sin(yaw) * cos(pitch)`,
`y = distance * sin(pitch)`, `z = distance * cos(yaw) * cos(pitch)` in
the damped camera values, and the camera is aimed at the origin. -/
theorem camera_spherical_position_C9 (jsSin jsCos : ℚ → ℚ) (inp : FrameInput) (s : WorkerState) :
    (animate jsSin jsCos inp s).1.cameraPosition.x =
      (animate jsSin jsCos inp s).1.cameraDistance *
        jsSin (animate jsSin jsCos inp s).1.cameraRotation.y *
        jsCos (animate jsSin jsCos inp s).1.cameraRotation.x ∧
    (animate jsSin jsCos inp s).1.cameraPosition.y =
      (animate jsSin jsCos inp s).1.cameraDistance *
        jsSin (animate jsSin jsCos inp s).1.cameraRotation.x ∧
    (animate jsSin jsCos inp s).1.cameraPosition.z =
      (animate jsSin jsCos inp s).1.cameraDistance *
        jsCos (animate jsSin jsCos inp s).1.cameraRotation.y *
        jsCos (animate jsSin jsCos inp s).1.cameraRotation.x ∧
    (animate jsSin jsCos inp s).1.lookAtTarget = ⟨0, 0, 0⟩ := by
  have h1 : (animate jsSin jsCos inp s).1.cameraPosition =
      (updateCameraPosition jsSin jsCos s).cameraPosition := by
    rw [animate_eq, (sfps_keeps _ _).2.2.2.2.1, (sfs_keeps _ _).2.2.2.2.1,
      (sobj_keeps _).2.2.2.2.1, (sid_keeps _ _).2.2.2.2.1]
  have h2 : (animate jsSin jsCos inp s).1.cameraRotation =
      (updateCameraPosition jsSin jsCos s).cameraRotation := by
    rw [animate_eq, (sfps_keeps _ _).1, (sfs_keeps _ _).1, (sobj_keeps _).1, (sid_keeps _ _).1]
  have h3 : (animate jsSin jsCos inp s).1.cameraDistance =
      (updateCameraPosition jsSin jsCos s).cameraDistance := by
    rw [animate_eq, (sfps_keeps _ _).2.2.1, (sfs_keeps _ _).2.2.1, (sobj_keeps _).2.2.1,
      (sid_keeps _ _).2.2.1]
  have h4 : (animate jsSin jsCos inp s).1.lookAtTarget =
      (updateCameraPosition jsSin jsCos s).lookAtTarget := by
    rw [animate_eq, (sfps_keeps _ _).2.2.2.2.2.1, (sfs_keeps _ _).2.2.2.2.2.1,
      (sobj_keeps _).2.2.2.2.2.1, (sid_keeps _ _).2.2.2.2.2.1]
  rw [h1, h2, h3, h4]
  exact ⟨rfl, rfl, rfl, rfl⟩

/-- C10: an `init` message with an absent or zero (falsy) `objectCount`
makes the worker build 100 objects (the `count || 100` fallback), and
any strictly positive `objectCount` builds exactly that many. -/
theorem object_count_fallback_C10 (mkObj : ℕ → SceneObject) (c : ℕ) :
    (createScene (initObjectCount none) mkObj).length = 100 ∧
    (createScene (initObjectCount (some 0)) mkObj).length = 100 ∧
    (createScene (initObjectCount (some (c + 1))) mkObj).length = c + 1 := by
  refine ⟨?_, ?_, ?_⟩ <;> simp [createScene, initObjectCount]

/-! ## Object bounce at the boundary -/

theorem bounce_axis (p v : ℚ) :
    (|p + v| > 25 →
      (if |p + v| > 25 then -v else v) = -v ∧
      (p + v) + (if |p + v| > 25 then -v else v) = p ∧
      (|p| ≤ 25 →
        |(p + v) + (if |p + v| > 25 then -v else v)| < |p + v| ∧
        |(p + v) + (if |p + v| > 25 then -v else v)| ≤ 25)) ∧
    (|p| ≤ 25 ∨ |p + v| ≤ 25 →
      |p + v| ≤ 25 ∨ |(p + v) + (if |p + v| > 25 then -v else v)| ≤ 25) := by
  constructor
  · intro h
    rw [if_pos h]
    refine ⟨rfl, by ring, ?_⟩
    intro hin
    have hp : (p + v) + -v = p := by ring
    rw [hp]
    exact ⟨lt_of_le_of_lt hin h, hin⟩
  · intro h
    by_cases hc : |p + v| > 25
    · have hin : |p| ≤ 25 := by
        rcases h with h | h
        · exact h
        · exact absurd h (not_le.mpr hc)
      right
      rw [if_pos hc]
      have hp : (p + v) + -v = p := by ring
      rw [hp]
      exact hin
    · exact Or.inl (not_lt.mp hc)

/-- C4: in the shared per-frame object update (identical in the worker
and the main-thread loop, boundary 25), whenever a position component
exceeds magnitude 25 after being advanced by the velocity, that
velocity component's sign is flipped on the same frame; the next frame
then returns the component exactly to its pre-bounce value, which is
strictly closer to (and, from a reachable in-bounds state, within) the
bound.  The final conjunct of each axis shows the in-bounds
precondition is an inductive invariant of the update. -/
theorem bounce_on_boundary_C4 (obj : SceneObject) :
    ((|obj.position.x + obj.velocity.x| > 25 →
        (updateObject obj).velocity.x = -obj.velocity.x ∧
        (updateObject (updateObject obj)).position.x = obj.position.x ∧
        (|obj.position.x| ≤ 25 →
          |(updateObject (updateObject obj)).position.x| < |(updateObject obj).position.x| ∧
          |(updateObject (updateObject obj)).position.x| ≤ 25)) ∧
      (|obj.position.x| ≤ 25 ∨ |obj.position.x + obj.velocity.x| ≤ 25 →
        |(updateObject obj).position.x| ≤ 25 ∨
          |(updateObject obj).position.x + (updateObject obj).velocity.x| ≤ 25)) ∧
    ((|obj.position.y + obj.velocity.y| > 25 →
        (updateObject obj).velocity.y = -obj.velocity.y ∧
        (updateObject (updateObject obj)).position.y = obj.position.y ∧
        (|obj.position.y| ≤ 25 →
          |(updateObject (updateObject obj)).position.y| < |(updateObject obj).position.y| ∧
          |(updateObject (updateObject obj)).position.y| ≤ 25)) ∧
      (|obj.position.y| ≤ 25 ∨ |obj.position.y + obj.velocity.y| ≤ 25 →
        |(updateObject obj).position.y| ≤ 25 ∨
          |(updateObject obj).position.y + (updateObject obj).velocity.y| ≤ 25)) ∧
    ((|obj.position.z + obj.velocity.z| > 25 →
        (updateObject obj).velocity.z = -obj.velocity.z ∧
        (updateObject (updateObject obj)).position.z = obj.position.z ∧
        (|obj.position.z| ≤ 25 →
          |(updateObject (updateObject obj)).position.z| < |(updateObject obj).position.z| ∧
          |(updateObject (updateObject obj)).position.z| ≤ 25)) ∧
      (|obj.position.z| ≤ 25 ∨ |obj.position.z + obj.velocity.z| ≤ 25 →
        |(updateObject obj).position.z| ≤ 25 ∨
          |(updateObject obj).position.z + (updateObject obj).velocity.z| ≤ 25)) := by
  refine ⟨?_, ?_, ?_⟩
  · have e1 : (updateObject obj).position.x = obj.position.x + obj.velocity.x := rfl
    have e2 : (updateObject obj).velocity.x =
        (if |obj.position.x + obj.velocity.x| > 25 then -obj.velocity.x else obj.velocity.x) := rfl
    have e3 : (updateObject (updateObject obj)).position.x =
        (updateObject obj).position.x + (updateObject obj).velocity.x := rfl
    rw [e3, e1, e2]
    exact bounce_axis obj.position.x obj.velocity.x
  · have e1 : (updateObject obj).position.y = obj.position.y + obj.velocity.y := rfl
    have e2 : (updateObject obj).velocity.y =
        (if |obj.position.y + obj.velocity.y| > 25 then -obj.velocity.y else obj.velocity.y) := rfl
    have e3 : (updateObject (updateObject obj)).position.y =
        (updateObject obj).position.y + (updateObject obj).velocity.y := rfl
    rw [e3, e1, e2]
    exact bounce_axis obj.position.y obj.velocity.y
  · have e1 : (updateObject obj).position.z = obj.position.z + obj.velocity.z := rfl
    have e2 : (updateObject obj).velocity.z =
        (if |obj.position.z + obj.velocity.z| > 25 then -obj.velocity.z else obj.velocity.z) := rfl
    have e3 : (updateObject (updateObject obj)).position.z =
        (updateObject obj).position.z + (updateObject obj).velocity.z := rfl
    rw [e3, e1, e2]
    exact bounce_axis obj.position.z obj.velocity.z

theorem bounce_on_boundary_C4_witness :
    (updateObject (⟨⟨25, -25, 20⟩, ⟨0, 0, 0⟩, ⟨1, -1, 6, 0, 0, 0⟩⟩ : SceneObject)).velocity.x =
      -(⟨⟨25, -25, 20⟩, ⟨0, 0, 0⟩, ⟨1, -1, 6, 0, 0, 0⟩⟩ : SceneObject).velocity.x ∧
    (updateObject (updateObject
        (⟨⟨25, -25, 20⟩, ⟨0, 0, 0⟩, ⟨1, -1, 6, 0, 0, 0⟩⟩ : SceneObject))).position.x =
      (⟨⟨25, -25, 20⟩, ⟨0, 0, 0⟩, ⟨1, -1, 6, 0, 0, 0⟩⟩ : SceneObject).position.x ∧
    |(updateObject (updateObject
        (⟨⟨25, -25, 20⟩, ⟨0, 0, 0⟩, ⟨1, -1, 6, 0, 0, 0⟩⟩ : SceneObject))).position.x| ≤ 25 ∧
    (updateObject (⟨⟨25, -25, 20⟩, ⟨0, 0, 0⟩, ⟨1, -1, 6, 0, 0, 0⟩⟩ : SceneObject)).velocity.y =
      -(⟨⟨25, -25, 20⟩, ⟨0, 0, 0⟩, ⟨1, -1, 6, 0, 0, 0⟩⟩ : SceneObject).velocity.y ∧
    (updateObject (updateObject
        (⟨⟨25, -25, 20⟩, ⟨0, 0, 0⟩, ⟨1, -1, 6, 0, 0, 0⟩⟩ : SceneObject))).position.y =
      (⟨⟨25, -25, 20⟩, ⟨0, 0, 0⟩, ⟨1, -1, 6, 0, 0, 0⟩⟩ : SceneObject).position.y ∧
    |(updateObject (updateObject
        (⟨⟨25, -25, 20⟩, ⟨0, 0, 0⟩, ⟨1, -1, 6, 0, 0, 0⟩⟩ : SceneObject))).position.y| ≤ 25 ∧
    (updateObject (⟨⟨25, -25, 20⟩, ⟨0, 0, 0⟩, ⟨1, -1, 6, 0, 0, 0⟩⟩ : SceneObject)).velocity.z =
      -(⟨⟨25, -25, 20⟩, ⟨0, 0, 0⟩, ⟨1, -1, 6, 0, 0, 0⟩⟩ : SceneObject).velocity.z ∧
    (updateObject (updateObject
        (⟨⟨25, -25, 20⟩, ⟨0, 0, 0⟩, ⟨1, -1, 6, 0, 0, 0⟩⟩ : SceneObject))).position.z =
      (⟨⟨25, -25, 20⟩, ⟨0, 0, 0⟩, ⟨1, -1, 6, 0, 0, 0⟩⟩ : SceneObject).position.z ∧
    |(updateObject (updateObject
        (⟨⟨25, -25, 20⟩, ⟨0, 0, 0⟩, ⟨1, -1, 6, 0, 0, 0⟩⟩ : SceneObject))).position.z| ≤ 25 := by
  have h := bounce_on_boundary_C4 (⟨⟨25, -25, 20⟩, ⟨0, 0, 0⟩, ⟨1, -1, 6, 0, 0, 0⟩⟩ : SceneObject)
  have hx := h.1.1 (by norm_num [lt_abs])
  have hy := h.2.1.1 (by norm_num [lt_abs])
  have hz := h.2.2.1 (by norm_num [lt_abs])
  exact ⟨hx.1, hx.2.1, (hx.2.2 (by norm_num [abs_le])).2,
    hy.1, hy.2.1, (hy.2.2 (by norm_num [abs_le])).2,
    hz.1, hz.2.1, (hz.2.2 (by norm_num [abs_le])).2⟩

/-! ## Interaction-delay buffer -/

theorem animate_interaction_fields (jsSin jsCos : ℚ → ℚ) (inp : FrameInput) (s : WorkerState) :
    (animate jsSin jsCos inp s).1.lastInteractionTime =
      (stepInteractionDelay inp.dateNow (updateCameraPosition jsSin jsCos s)).lastInteractionTime ∧
    (animate jsSin jsCos inp s).1.interactionDelays =
      (stepInteractionDelay inp.dateNow (updateCameraPosition jsSin jsCos s)).interactionDelays ∧
    (animate jsSin jsCos inp s).1.interactionDelay =
      (stepInteractionDelay inp.dateNow (updateCameraPosition jsSin jsCos s)).interactionDelay := by
  rw [animate_eq]
  refine ⟨?_, ?_, ?_⟩
  · rw [(sfps_keeps _ _).2.2.2.2.2.2.1, (sfs_keeps _ _).2.2.2.2.2.2.1,
      (sobj_keeps _).2.2.2.2.2.2.1]
  · rw [(sfps_keeps _ _).2.2.2.2.2.2.2.1, (sfs_keeps _ _).2.2.2.2.2.2.2.1,
      (sobj_keeps _).2.2.2.2.2.2.2.1]
  · rw [(sfps_keeps _ _).2.2.2.2.2.2.2.2.1, (sfs_keeps _ _).2.2.2.2.2.2.2.2.1,
      (sobj_keeps _).2.2.2.2.2.2.2.2.1]

theorem push_evict_length_le (l : List ℚ) (x : ℚ) (cap : ℕ) (h : l.length ≤ cap) :
    (if (l ++ [x]).length > cap then (l ++ [x]).tail else l ++ [x]).length ≤ cap := by
  by_cases hc : (l ++ [x]).length > cap
  · rw [if_pos hc, List.length_tail, List.length_append, List.length_singleton]
    omega
  · rw [if_neg hc]
    exact Nat.le_of_not_lt hc

/-- C5: on a frame with a pending (positive) interaction timestamp, the
loop pushes `now − timestamp` into the delay buffer, evicts the oldest
entry when the buffer would exceed 30 entries (so its length never
exceeds 30), sets the reported delay to the arithmetic mean of the
buffer, and clears the pending timestamp; a frame with no pending
timestamp leaves the buffer and the reported delay unchanged. -/
theorem interaction_delay_buffer_C5 (jsSin jsCos : ℚ → ℚ) (inp : FrameInput) (s : WorkerState) :
    (s.lastInteractionTime > 0 →
      (animate jsSin jsCos inp s).1.interactionDelays =
        (if (s.interactionDelays ++ [inp.dateNow - s.lastInteractionTime]).length > 30
         then (s.interactionDelays ++ [inp.dateNow - s.lastInteractionTime]).tail
         else s.interactionDelays ++ [inp.dateNow - s.lastInteractionTime]) ∧
      (animate jsSin jsCos inp s).1.interactionDelay =
        ((animate jsSin jsCos inp s).1.interactionDelays).sum /
          (((animate jsSin jsCos inp s).1.interactionDelays).length : ℚ) ∧
      (animate jsSin jsCos inp s).1.lastInteractionTime = 0 ∧
      (s.interactionDelays.length ≤ 30 →
        ((animate jsSin jsCos inp s).1.interactionDelays).length ≤ 30)) ∧
    (¬ s.lastInteractionTime > 0 →
      (animate jsSin jsCos inp s).1.interactionDelays = s.interactionDelays ∧
      (animate jsSin jsCos inp s).1.interactionDelay = s.interactionDelay) := by
  obtain ⟨hf1, hf2, hf3⟩ := animate_interaction_fields jsSin jsCos inp s
  constructor
  · intro h
    have hu : (updateCameraPosition jsSin jsCos s).lastInteractionTime > 0 := h
    have hsid := stepInteractionDelay_pending inp.dateNow (updateCameraPosition jsSin jsCos s) hu
    rw [show (updateCameraPosition jsSin jsCos s).lastInteractionTime = s.lastInteractionTime from rfl,
      show (updateCameraPosition jsSin jsCos s).interactionDelays = s.interactionDelays from rfl] at hsid
    rw [hsid] at hf1 hf2 hf3
    have hA : (animate jsSin jsCos inp s).1.interactionDelays =
        (if (s.interactionDelays ++ [inp.dateNow - s.lastInteractionTime]).length > 30
         then (s.interactionDelays ++ [inp.dateNow - s.lastInteractionTime]).tail
         else s.interactionDelays ++ [inp.dateNow - s.lastInteractionTime]) := by
      rw [hf2]
    have hB : (animate jsSin jsCos inp s).1.interactionDelay =
        ((if (s.interactionDelays ++ [inp.dateNow - s.lastInteractionTime]).length > 30
          then (s.interactionDelays ++ [inp.dateNow - s.lastInteractionTime]).tail
          else s.interactionDelays ++ [inp.dateNow - s.lastInteractionTime]).sum /
         (((if (s.interactionDelays ++ [inp.dateNow - s.lastInteractionTime]).length > 30
            then (s.interactionDelays ++ [inp.dateNow - s.lastInteractionTime]).tail
            else s.interactionDelays ++ [inp.dateNow - s.lastInteractionTime]).length : ℕ) : ℚ)) := by
      rw [hf3]
    have hC : (animate jsSin jsCos inp s).1.lastInteractionTime = 0 := by
      rw [hf1]
    refine ⟨hA, ?_, hC, ?_⟩
    · rw [hB, hA]
    · intro hlen
      rw [hA]
      exact push_evict_length_le s.interactionDelays _ 30 hlen
  · intro h
    have hu : ¬ (updateCameraPosition jsSin jsCos s).lastInteractionTime > 0 := h
    rw [stepInteractionDelay_idle inp.dateNow _ hu] at hf2 hf3
    exact ⟨hf2, hf3⟩

theorem interaction_delay_buffer_C5_witness :
    ((animate (fun _ => (0:ℚ)) (fun _ => (0:ℚ)) ⟨0, 7, 10, 0⟩
        { initState 0 with lastInteractionTime := 5 }).1.lastInteractionTime = 0 ∧
      ((animate (fun _ => (0:ℚ)) (fun _ => (0:ℚ)) ⟨0, 7, 10, 0⟩
        { initState 0 with lastInteractionTime := 5 }).1.interactionDelays).length ≤ 30) ∧
    (animate (fun _ => (0:ℚ)) (fun _ => (0:ℚ)) ⟨0, 7, 10, 0⟩ (initState 0)).1.interactionDelay =
      (initState 0).interactionDelay := by
  have h1 := (interaction_delay_buffer_C5 (fun _ => (0:ℚ)) (fun _ => (0:ℚ)) ⟨0, 7, 10, 0⟩
    { initState 0 with lastInteractionTime := 5 }).1 (by norm_num [initState])
  have h2 := (interaction_delay_buffer_C5 (fun _ => (0:ℚ)) (fun _ => (0:ℚ)) ⟨0, 7, 10, 0⟩
    (initState 0)).2 (by norm_num [initState])
  exact ⟨⟨h1.2.2.1, h1.2.2.2 (by norm_num [initState])⟩, h2.2⟩

/-! ## Frame statistics window -/

theorem s4_fields (jsSin jsCos : ℚ → ℚ) (inp : FrameInput) (s : WorkerState) :
    (stepFrameStats (inp.frameEnd - inp.frameStart) (stepObjects (stepInteractionDelay inp.dateNow
        (updateCameraPosition jsSin jsCos s)))).lastTime = s.lastTime ∧
    (stepFrameStats (inp.frameEnd - inp.frameStart) (stepObjects (stepInteractionDelay inp.dateNow
        (updateCameraPosition jsSin jsCos s)))).frames = s.frames + 1 ∧
    (stepFrameStats (inp.frameEnd - inp.frameStart) (stepObjects (stepInteractionDelay inp.dateNow
        (updateCameraPosition jsSin jsCos s)))).droppedFrames =
      (if inp.frameEnd - inp.frameStart > TARGET_FRAME_TIME then s.droppedFrames + 1
       else s.droppedFrames) ∧
    (stepFrameStats (inp.frameEnd - inp.frameStart) (stepObjects (stepInteractionDelay inp.dateNow
        (updateCameraPosition jsSin jsCos s)))).maxDelay =
      max s.maxDelay (inp.frameEnd - inp.frameStart) ∧
    (stepFrameStats (inp.frameEnd - inp.frameStart) (stepObjects (stepInteractionDelay inp.dateNow
        (updateCameraPosition jsSin jsCos s)))).frameTimes =
      (if (s.frameTimes ++ [inp.frameEnd - inp.frameStart]).length > 60
       then (s.frameTimes ++ [inp.frameEnd - inp.frameStart]).tail
       else s.frameTimes ++ [inp.frameEnd - inp.frameStart]) ∧
    (stepFrameStats (inp.frameEnd - inp.frameStart) (stepObjects (stepInteractionDelay inp.dateNow
        (updateCameraPosition jsSin jsCos s)))).interactionDelays =
      (stepInteractionDelay inp.dateNow (updateCameraPosition jsSin jsCos s)).interactionDelays ∧
    (stepFrameStats (inp.frameEnd - inp.frameStart) (stepObjects (stepInteractionDelay inp.dateNow
        (updateCameraPosition jsSin jsCos s)))).interactionDelay =
      (stepInteractionDelay inp.dateNow (updateCameraPosition jsSin jsCos s)).interactionDelay := by
  by_cases hcond : (updateCameraPosition jsSin jsCos s).lastInteractionTime > 0
  · have hsid := stepInteractionDelay_pending inp.dateNow (updateCameraPosition jsSin jsCos s) hcond
    rw [show (updateCameraPosition jsSin jsCos s).lastInteractionTime = s.lastInteractionTime from rfl,
      show (updateCameraPosition jsSin jsCos s).interactionDelays = s.interactionDelays from rfl] at hsid
    rw [hsid]
    exact ⟨rfl, rfl, rfl, rfl, rfl, rfl, rfl⟩
  · rw [stepInteractionDelay_idle inp.dateNow _ hcond]
    exact ⟨rfl, rfl, rfl, rfl, rfl, rfl, rfl⟩

theorem animate_no_emit (jsSin jsCos : ℚ → ℚ) (inp : FrameInput) (s : WorkerState)
    (h : ¬ inp.now ≥ s.lastTime + 1000) :
    (animate jsSin jsCos inp s).1.lastTime = s.lastTime ∧
    (animate jsSin jsCos inp s).1.droppedFrames =
      s.droppedFrames + (if inp.frameEnd - inp.frameStart > TARGET_FRAME_TIME then 1 else 0) ∧
    (animate jsSin jsCos inp s).2 = none := by
  obtain ⟨h1, h2, h3, h4, h5, h6, h7⟩ := s4_fields jsSin jsCos inp s
  have hcond : ¬ inp.now ≥ (stepFrameStats (inp.frameEnd - inp.frameStart)
      (stepObjects (stepInteractionDelay inp.dateNow
        (updateCameraPosition jsSin jsCos s)))).lastTime + 1000 := by
    rw [h1]; exact h
  rw [animate_eq, stepFPS_no_emit _ _ hcond]
  refine ⟨h1, h3.trans ?_, rfl⟩
  split_ifs <;> omega

theorem animate_emit (jsSin jsCos : ℚ → ℚ) (inp : FrameInput) (s : WorkerState)
    (h : inp.now ≥ s.lastTime + 1000) :
    (animate jsSin jsCos inp s).1.frames = 0 ∧
    (animate jsSin jsCos inp s).1.droppedFrames = 0 ∧
    (animate jsSin jsCos inp s).1.maxDelay = 0 ∧
    (animate jsSin jsCos inp s).1.lastTime = inp.now ∧
    (animate jsSin jsCos inp s).1.frameTimes =
      (if (s.frameTimes ++ [inp.frameEnd - inp.frameStart]).length > 60
       then (s.frameTimes ++ [inp.frameEnd - inp.frameStart]).tail
       else s.frameTimes ++ [inp.frameEnd - inp.frameStart]) ∧
    (animate jsSin jsCos inp s).1.interactionDelays =
      (stepInteractionDelay inp.dateNow (updateCameraPosition jsSin jsCos s)).interactionDelays ∧
    (animate jsSin jsCos inp s).1.interactionDelay =
      (stepInteractionDelay inp.dateNow (updateCameraPosition jsSin jsCos s)).interactionDelay ∧
    (animate jsSin jsCos inp s).2 =
      some
        { fps := .intVal (round (((s.frames + 1 : ℕ) : ℚ) * 1000 / (inp.now - s.lastTime)))
          avgFrameTime := toFixed2
            ((if (s.frameTimes ++ [inp.frameEnd - inp.frameStart]).length > 60
              then (s.frameTimes ++ [inp.frameEnd - inp.frameStart]).tail
              else s.frameTimes ++ [inp.frameEnd - inp.frameStart]).sum /
             (((if (s.frameTimes ++ [inp.frameEnd - inp.frameStart]).length > 60
                then (s.frameTimes ++ [inp.frameEnd - inp.frameStart]).tail
                else s.frameTimes ++ [inp.frameEnd - inp.frameStart]).length : ℕ) : ℚ))
          droppedFrames := .intVal
            (((if inp.frameEnd - inp.frameStart > TARGET_FRAME_TIME then s.droppedFrames + 1
               else s.droppedFrames) : ℕ) : ℤ)
          maxDelay := toFixed2 (max s.maxDelay (inp.frameEnd - inp.frameStart))
          interactionDelay := toFixed2
            ((stepInteractionDelay inp.dateNow
              (updateCameraPosition jsSin jsCos s)).interactionDelay) } := by
  obtain ⟨h1, h2, h3, h4, h5, h6, h7⟩ := s4_fields jsSin jsCos inp s
  have hcond : inp.now ≥ (stepFrameStats (inp.frameEnd - inp.frameStart)
      (stepObjects (stepInteractionDelay inp.dateNow
        (updateCameraPosition jsSin jsCos s)))).lastTime + 1000 := by
    rw [h1]; exact h
  rw [animate_eq, stepFPS_emit _ _ hcond]
  refine ⟨rfl, rfl, rfl, rfl, h5, h6, h7, ?_⟩
  rw [h1, h2, h3, h4, h5, h7]

theorem countOverTarget_nil : countOverTarget [] = 0 := rfl

theorem countOverTarget_cons (i : FrameInput) (is : List FrameInput) :
    countOverTarget (i :: is) =
      (if i.frameEnd - i.frameStart > TARGET_FRAME_TIME then 1 else 0) + countOverTarget is := by
  unfold countOverTarget
  by_cases hc : i.frameEnd - i.frameStart > TARGET_FRAME_TIME
  · simp [List.filter_cons, hc, Nat.add_comm]
  · simp [List.filter_cons, hc]

theorem countOverTarget_append (pre : List FrameInput) (i : FrameInput) :
    countOverTarget (pre ++ [i]) =
      countOverTarget pre + (if i.frameEnd - i.frameStart > TARGET_FRAME_TIME then 1 else 0) := by
  unfold countOverTarget
  rw [List.filter_append, List.length_append]
  by_cases hc : i.frameEnd - i.frameStart > TARGET_FRAME_TIME
  · simp [List.filter_cons, hc]
  · simp [List.filter_cons, hc]

theorem runFrames_no_emit (jsSin jsCos : ℚ → ℚ) (inps : List FrameInput) (s : WorkerState)
    (h : ∀ i ∈ inps, ¬ i.now ≥ s.lastTime + 1000) :
    (runFrames jsSin jsCos inps s).lastTime = s.lastTime ∧
    (runFrames jsSin jsCos inps s).droppedFrames = s.droppedFrames + countOverTarget inps := by
  induction inps generalizing s with
  | nil => exact ⟨rfl, by simp [runFrames, countOverTarget]⟩
  | cons i is ih =>
    have hi : ¬ i.now ≥ s.lastTime + 1000 := h i (List.mem_cons_self i is)
    obtain ⟨hlt, hdf, _⟩ := animate_no_emit jsSin jsCos i s hi
    have hrec := ih ((animate jsSin jsCos i s).1) (fun j hj => by
      rw [hlt]
      exact h j (List.mem_cons_of_mem i hj))
    have hstep : runFrames jsSin jsCos (i :: is) s =
        runFrames jsSin jsCos is ((animate jsSin jsCos i s).1) := rfl
    constructor
    · rw [hstep, hrec.1, hlt]
    · rw [hstep, hrec.2, hdf, countOverTarget_cons]
      exact Nat.add_assoc _ _ _

/-- C6: over a stats window — starting from a freshly reset
dropped-frame counter, any run of frames that do not reach the
1000 ms mark, followed by one frame that does — the emitted snapshot's
dropped-frame count equals the number of frames in the window whose
measured duration strictly exceeded `TARGET_FRAME_TIME`, and the
counter is reset to 0 at the emission. -/
theorem dropped_frames_window_C6 (jsSin jsCos : ℚ → ℚ) (pre : List FrameInput)
    (lastI : FrameInput) (s : WorkerState)
    (h0 : s.droppedFrames = 0)
    (hpre : ∀ i ∈ pre, ¬ i.now ≥ s.lastTime + 1000)
    (hlast : lastI.now ≥ s.lastTime + 1000) :
    ((animate jsSin jsCos lastI (runFrames jsSin jsCos pre s)).2).map
        StatsSnapshot.droppedFrames =
      some (.intVal (countOverTarget (pre ++ [lastI]) : ℤ)) ∧
    (animate jsSin jsCos lastI (runFrames jsSin jsCos pre s)).1.droppedFrames = 0 := by
  obtain ⟨hLT, hDF⟩ := runFrames_no_emit jsSin jsCos pre s hpre
  have hlast' : lastI.now ≥ (runFrames jsSin jsCos pre s).lastTime + 1000 := by
    rw [hLT]; exact hlast
  obtain ⟨_, hdf0, _, _, _, _, _, hsnap⟩ :=
    animate_emit jsSin jsCos lastI (runFrames jsSin jsCos pre s) hlast'
  refine ⟨?_, hdf0⟩
  rw [hsnap]
  have hv : (if lastI.frameEnd - lastI.frameStart > TARGET_FRAME_TIME
      then (runFrames jsSin jsCos pre s).droppedFrames + 1
      else (runFrames jsSin jsCos pre s).droppedFrames) = countOverTarget (pre ++ [lastI]) := by
    rw [countOverTarget_append, hDF, h0]
    split_ifs <;> omega
  exact congrArg (fun n : ℕ => some (StatField.intVal (n : ℤ))) hv

theorem dropped_frames_window_C6_witness :
    ((animate (fun _ => (0:ℚ)) (fun _ => (0:ℚ)) ⟨0, 0, 10, 1200⟩
        (runFrames (fun _ => (0:ℚ)) (fun _ => (0:ℚ)) [⟨0, 0, 20, 500⟩] (initState 0))).2).map
        StatsSnapshot.droppedFrames = some (.intVal 1) ∧
    (animate (fun _ => (0:ℚ)) (fun _ => (0:ℚ)) ⟨0, 0, 10, 1200⟩
        (runFrames (fun _ => (0:ℚ)) (fun _ => (0:ℚ)) [⟨0, 0, 20, 500⟩]
          (initState 0))).1.droppedFrames = 0 := by
  have h := dropped_frames_window_C6 (fun _ => (0:ℚ)) (fun _ => (0:ℚ)) [⟨0, 0, 20, 500⟩]
    ⟨0, 0, 10, 1200⟩ (initState 0) (by norm_num [initState])
    (by
      intro i hi
      simp only [List.mem_singleton] at hi
      subst hi
      norm_num [initState])
    (by norm_num [initState])
  have hcount : countOverTarget ([(⟨0, 0, 20, 500⟩ : FrameInput)] ++ [⟨0, 0, 10, 1200⟩]) = 1 := by
    rw [countOverTarget_append, countOverTarget_cons, countOverTarget_nil]
    norm_num [TARGET_FRAME_TIME]
  refine ⟨?_, h.2⟩
  rw [h.1, hcount]
  norm_num

/-- C7 counterexample: at a concrete snapshot emission the
`droppedFrames` field of the posted stats message is a raw number, not
a `toFixed(2)`-formatted string, contradicting the claim that every
numeric field except `fps` is emitted as a 2-decimal string. -/
theorem stats_field_format_C7_counterexample :
    ((animate (fun _ => (0:ℚ)) (fun _ => (0:ℚ)) ⟨0, 0, 10, 1000⟩ (initState 0)).2).map
        (fun sn => sn.droppedFrames.isFormattedString) = some false := by
  obtain ⟨_, _, _, _, _, _, _, hsnap⟩ := animate_emit (fun _ => (0:ℚ)) (fun _ => (0:ℚ))
    ⟨0, 0, 10, 1000⟩ (initState 0) (by norm_num [initState])
  rw [hsnap]
  rfl

/-- C7 (amended): at every snapshot emission the reported fps equals
`Math.round(frames_rendered * 1000 / elapsed_ms)` for the
just-completed window and is emitted as a raw integer; `droppedFrames`
is likewise a raw integer, while `avgFrameTime`, `maxDelay` and
`interactionDelay` are `toFixed(2)`-formatted strings; the frame
counter is reset to 0 immediately after the snapshot. -/
theorem fps_formula_C7 (jsSin jsCos : ℚ → ℚ) (inp : FrameInput) (s : WorkerState)
    (h : inp.now ≥ s.lastTime + 1000) :
    ∃ sn : StatsSnapshot,
      (animate jsSin jsCos inp s).2 = some sn ∧
      sn.fps = .intVal (round (((s.frames + 1 : ℕ) : ℚ) * 1000 / (inp.now - s.lastTime))) ∧
      sn.fps.isFormattedString = false ∧
      sn.droppedFrames.isFormattedString = false ∧
      sn.avgFrameTime.isFormattedString = true ∧
      sn.maxDelay.isFormattedString = true ∧
      sn.interactionDelay.isFormattedString = true ∧
      (animate jsSin jsCos inp s).1.frames = 0 := by
  obtain ⟨hfr0, _, _, _, _, _, _, hsnap⟩ := animate_emit jsSin jsCos inp s h
  exact ⟨_, hsnap, rfl, rfl, rfl, rfl, rfl, rfl, hfr0⟩

theorem fps_formula_C7_witness :
    (∃ sn : StatsSnapshot,
      (animate (fun _ => (0:ℚ)) (fun _ => (0:ℚ)) ⟨0, 0, 10, 2000⟩ (initState 0)).2 = some sn ∧
      sn.fps.isFormattedString = false ∧
      sn.avgFrameTime.isFormattedString = true) ∧
    (animate (fun _ => (0:ℚ)) (fun _ => (0:ℚ)) ⟨0, 0, 10, 2000⟩ (initState 0)).1.frames = 0 := by
  obtain ⟨sn, h1, _, h3, _, h5, _, _, h8⟩ := fps_formula_C7 (fun _ => (0:ℚ)) (fun _ => (0:ℚ))
    ⟨0, 0, 10, 2000⟩ (initState 0) (by norm_num [initState])
  exact ⟨⟨sn, h1, h3, h5⟩, h8⟩

/-- C8: a snapshot emission resets exactly the frame counter, the
dropped-frame counter and the max-delay tracker to 0, while the
frame-time buffer keeps its pushed/evicted contents (capacity 60) and
the interaction-delay buffer and reported delay keep the values the
per-frame delay step produced — the sliding windows persist across
snapshots. -/
theorem snapshot_reset_scope_C8 (jsSin jsCos : ℚ → ℚ) (inp : FrameInput) (s : WorkerState)
    (h : inp.now ≥ s.lastTime + 1000) :
    (animate jsSin jsCos inp s).1.frames = 0 ∧
    (animate jsSin jsCos inp s).1.droppedFrames = 0 ∧
    (animate jsSin jsCos inp s).1.maxDelay = 0 ∧
    (animate jsSin jsCos inp s).1.frameTimes =
      (if (s.frameTimes ++ [inp.frameEnd - inp.frameStart]).length > 60
       then (s.frameTimes ++ [inp.frameEnd - inp.frameStart]).tail
       else s.frameTimes ++ [inp.frameEnd - inp.frameStart]) ∧
    (s.frameTimes.length ≤ 60 → ((animate jsSin jsCos inp s).1.frameTimes).length ≤ 60) ∧
    (animate jsSin jsCos inp s).1.interactionDelays =
      (stepInteractionDelay inp.dateNow (updateCameraPosition jsSin jsCos s)).interactionDelays ∧
    (animate jsSin jsCos inp s).1.interactionDelay =
      (stepInteractionDelay inp.dateNow (updateCameraPosition jsSin jsCos s)).interactionDelay := by
  obtain ⟨h1, h2, h3, _, h5, h6, h7, _⟩ := animate_emit jsSin jsCos inp s h
  refine ⟨h1, h2, h3, h5, ?_, h6, h7⟩
  intro hlen
  rw [h5]
  exact push_evict_length_le s.frameTimes _ 60 hlen

theorem snapshot_reset_scope_C8_witness :
    (animate (fun _ => (0:ℚ)) (fun _ => (0:ℚ)) ⟨0, 0, 10, 1500⟩ (initState 0)).1.frames = 0 ∧
    (animate (fun _ => (0:ℚ)) (fun _ => (0:ℚ)) ⟨0, 0, 10, 1500⟩
      (initState 0)).1.droppedFrames = 0 ∧
    (animate (fun _ => (0:ℚ)) (fun _ => (0:ℚ)) ⟨0, 0, 10, 1500⟩ (initState 0)).1.maxDelay = 0 ∧
    ((animate (fun _ => (0:ℚ)) (fun _ => (0:ℚ)) ⟨0, 0, 10, 1500⟩
      (initState 0)).1.frameTimes).length ≤ 60 := by
  have h := snapshot_reset_scope_C8 (fun _ => (0:ℚ)) (fun _ => (0:ℚ)) ⟨0, 0, 10, 1500⟩
    (initState 0) (by norm_num [initState])
  exact ⟨h.1, h.2.1, h.2.2.1, h.2.2.2.2.1 (by norm_num [initState])⟩
